import Mathlib

/-!
# Verification of the zk-age-proof library (src/lib/zk-age.ts)

A shallow embedding of the age-verification core: `generateAgeProof`,
`verifyAgeProof` and `createPublicProof`, together with theorems checking the
natural-language specification against this embedding.

Modelling conventions:
* JavaScript runtime values that reach the verifier over the wire are modelled
  by the inductive `JSVal` (strings, numbers, booleans, `NaN`, `undefined`),
  so that the structural checks and implicit coercions of the source are
  expressible. `Number` values are modelled as `Option Int` (`none` = `NaN`);
  the timestamps and date components of this library are all integral.
* The ambient collaborators of the core (wall clock `new Date()` / `Date.now()`,
  the entropy source behind `crypto.randomBytes`, and the SHA-256 hex digest of
  the crypto module) are injected as explicit parameters, as the design notes
  of the specification prescribe; the hash appears as a parameter
  `sha256hex : String → String`.
* A `Date` is modelled by its calendar components (year, 1-based month,
  day-of-month); `toISODateString` models `d.toISOString().split('T')[0]`.
-/

namespace ZkAge

/-- A JavaScript runtime value, restricted to the shapes that can reach this
library: strings, integral numbers, booleans, `NaN` and `undefined`. -/
inductive JSVal where
  | vStr : String → JSVal
  | vNum : Int → JSVal
  | vBool : Bool → JSVal
  | vNaN : JSVal
  | vUndefined : JSVal
deriving DecidableEq, Repr

/-- JavaScript truthiness: `""`, `0`, `false`, `NaN` and `undefined` are falsy. -/
def truthy : JSVal → Bool
  | .vStr s => s != ""
  | .vNum n => n != 0
  | .vBool b => b
  | .vNaN => false
  | .vUndefined => false

/-- Models the test `typeof v === 'boolean'`. -/
def isBoolean : JSVal → Bool
  | .vBool _ => true
  | _ => false

/-- Models `Number(s)` on the string subset relevant here: surrounding
whitespace is trimmed, the empty string converts to `0`, an optional-sign
decimal integer converts to its value, anything else to `NaN` (`none`). -/
def strToNumber (s : String) : Option Int :=
  let t := s.trim
  if t = "" then some 0 else t.toInt?

/-- JavaScript numeric coercion `ToNumber`, with `none` standing for `NaN`. -/
def toNumber : JSVal → Option Int
  | .vStr s => strToNumber s
  | .vNum n => some n
  | .vBool b => some (if b then 1 else 0)
  | .vNaN => none
  | .vUndefined => none

/-- JavaScript string coercion, as used by the `+` concatenation operator. -/
def jsToString : JSVal → String
  | .vStr s => s
  | .vNum n => toString n
  | .vBool b => if b then "true" else "false"
  | .vNaN => "NaN"
  | .vUndefined => "undefined"

/-- JavaScript strict equality `===`: no coercion, and `NaN` equals nothing. -/
def jsStrictEq (a b : JSVal) : Bool :=
  match a, b with
  | .vNaN, _ => false
  | _, .vNaN => false
  | x, y => x == y

/-- Models `a > b` on JavaScript numbers: any comparison with `NaN` is false. -/
def jsGt (a : Option Int) (b : Int) : Bool :=
  match a with
  | some n => decide (n > b)
  | none => false

/-- A calendar date as the library reads it off a JS `Date`: `year` is
`getFullYear()`, `month` the 1-based calendar month (`getMonth() + 1`),
`day` the day-of-month (`getDate()`). -/
structure JSDate where
  year : Int
  month : Int
  day : Int
deriving DecidableEq, Repr

/-- Left-pads the decimal representation of a nonnegative integer with zeros. -/
def padNum (width : Nat) (n : Int) : String :=
  let s := toString n
  if s.length < width then String.mk (List.replicate (width - s.length) '0') ++ s else s

/-- Models `date.toISOString().split('T')[0]`: the canonical `YYYY-MM-DD`
rendering of the calendar date. -/
def toISODateString (d : JSDate) : String :=
  padNum 4 d.year ++ "-" ++ padNum 2 d.month ++ "-" ++ padNum 2 d.day

/-- The `AgeProof` interface of the source: the full private record. -/
structure AgeProof where
  commitment : String
  ageProof : Bool
  timestamp : Int
  salt : String
deriving DecidableEq, Repr

/-- The eligibility formula of `generateAgeProof` (zk-age.ts lines 36-40):
`age > 18 || (age === 18 && monthDiff >= 0 && today.getDate() >= birthDate.getDate())`
where `age = today.getFullYear() - birthDate.getFullYear()` and
`monthDiff = today.getMonth() - birthDate.getMonth()`. -/
def isOver18Gen (today birthDate : JSDate) : Bool :=
  let age := today.year - birthDate.year
  let monthDiff := today.month - birthDate.month
  decide (age > 18) ||
    (decide (age = 18) && decide (monthDiff ≥ 0) && decide (today.day ≥ birthDate.day))

/-- `generateAgeProof` (zk-age.ts lines 30-56). The salt drawn from
`crypto.randomBytes(32).toString('hex')`, the wall clock (`new Date()` for the
age computation, `Date.now()` for the timestamp) and the SHA-256 hex digest are
injected as parameters. -/
def generateAgeProof (sha256hex : String → String) (salt : String)
    (today : JSDate) (nowMs : Int) (birthDate : JSDate) : AgeProof :=
  let isOver18 := isOver18Gen today birthDate
  let birthDateString := toISODateString birthDate
  let commitment := sha256hex (birthDateString ++ salt)
  { commitment := commitment, ageProof := isOver18, timestamp := nowMs, salt := salt }

/-- The `proofDetails` record of a `VerificationResult`. -/
structure ProofDetails where
  commitment : JSVal
  expectedCommitment : String
  ageValid : Bool
  timestamp : JSVal
deriving DecidableEq, Repr

/-- The `VerificationResult` interface of the source. -/
structure VerificationResult where
  isValid : Bool
  message : String
  proofDetails : Option ProofDetails
deriving DecidableEq, Repr

/-- The proof object as it reaches `verifyAgeProof` at runtime: TypeScript
types are erased on the wire, so each field holds an arbitrary `JSVal`. -/
structure ProofInput where
  commitment : JSVal
  ageProof : JSVal
  timestamp : JSVal
  salt : JSVal
deriving DecidableEq, Repr

/-- A well-typed `AgeProof` as a runtime proof object. -/
def toVerifierInput (p : AgeProof) : ProofInput :=
  { commitment := .vStr p.commitment, ageProof := .vBool p.ageProof,
    timestamp := .vNum p.timestamp, salt := .vStr p.salt }

/-- The replay window: `const ONE_HOUR = 60 * 60 * 1000`. -/
def ONE_HOUR : Int := 60 * 60 * 1000

/-- The eligibility formula recomputed inside `verifyAgeProof`
(zk-age.ts lines 96-102):
`age > 18 || (age === 18 && monthDiff > 0) || (age === 18 && monthDiff === 0 && dayDiff >= 0)`. -/
def isOver18Verify (today birthDate : JSDate) : Bool :=
  let age := today.year - birthDate.year
  let monthDiff := today.month - birthDate.month
  let dayDiff := today.day - birthDate.day
  decide (age > 18) || (decide (age = 18) && decide (monthDiff > 0)) ||
    (decide (age = 18) && decide (monthDiff = 0) && decide (dayDiff ≥ 0))

/-- `verifyAgeProof` (zk-age.ts lines 62-124). `nowMs` models `Date.now()` in
the freshness check and `today` models `new Date()` in the age recomputation;
`birthDate` is the optional out-of-band known date. -/
def verifyAgeProof (sha256hex : String → String) (today : JSDate) (nowMs : Int)
    (proof : ProofInput) (birthDate : Option JSDate) : VerificationResult :=
  if !truthy proof.commitment || !isBoolean proof.ageProof then
    { isValid := false, message := "Invalid proof structure", proofDetails := none }
  else
    let proofAge := (toNumber proof.timestamp).map (fun t => nowMs - t)
    if jsGt proofAge ONE_HOUR then
      { isValid := false, message := "Proof has expired", proofDetails := none }
    else
      match birthDate with
      | some bd =>
        let birthDateString := toISODateString bd
        let expectedCommitment := sha256hex (birthDateString ++ jsToString proof.salt)
        let commitmentMatches := jsStrictEq proof.commitment (.vStr expectedCommitment)
        let isOver18 := isOver18Verify today bd
        let ageValid := jsStrictEq proof.ageProof (.vBool isOver18)
        { isValid := commitmentMatches && ageValid && jsStrictEq proof.ageProof (.vBool true),
          message :=
            if commitmentMatches && ageValid && truthy proof.ageProof then
              "Proof verified: User is over 18"
            else
              "Proof verification failed",
          proofDetails := some
            { commitment := proof.commitment, expectedCommitment := expectedCommitment,
              ageValid := ageValid, timestamp := proof.timestamp } }
      | none =>
        { isValid := jsStrictEq proof.ageProof (.vBool true),
          message :=
            if truthy proof.ageProof then
              "Proof accepted: User claims to be over 18"
            else
              "Proof rejected: User is not over 18",
          proofDetails := none }

/-- The public projection type returned by `createPublicProof`: exactly the
fields `commitment`, `ageProof`, `timestamp`, and no `salt` field. -/
structure PublicProof where
  commitment : String
  ageProof : Bool
  timestamp : Int
deriving DecidableEq, Repr

/-- `createPublicProof` (zk-age.ts lines 130-142). -/
def createPublicProof (proof : AgeProof) : PublicProof :=
  { commitment := proof.commitment, ageProof := proof.ageProof,
    timestamp := proof.timestamp }

/-- The whole-year calendar age as the specification words it (spec section 4.1):
`age = now.year - date.year`; if `(now.month, now.day)` is lexicographically
less than `(date.month, date.day)` then `age -= 1`. Stated from the
specification text, to be compared with the eligibility computed by the code. -/
def specCalendarAge (now date : JSDate) : Int :=
  let age := now.year - date.year
  if now.month < date.month ∨ (now.month = date.month ∧ now.day < date.day) then
    age - 1
  else
    age

/-- The age-eligibility predicate as the specification words it:
calendar age at least 18. -/
def specIsOver18 (now date : JSDate) : Bool :=
  decide (specCalendarAge now date ≥ 18)

theorem bool_eq_of_iff {a b : Bool} (h : a = true ↔ b = true) : a = b := by
  cases a <;> cases b <;> simp_all

theorem jsStrictEq_vBool (a c : Bool) : jsStrictEq (.vBool a) (.vBool c) = (a == c) := by
  cases a <;> cases c <;> decide

theorem truthy_vBool (b : Bool) : truthy (.vBool b) = b := rfl

/-- C1: the eligibility flag of `generateAgeProof` does not implement the
calendar-age formula of the specification. The three boundary examples of the
claim do hold (for today 2024-06-15: born 2006-06-15 is eligible, 2006-06-16 is
not, 2005-06-14 is), but at today 2024-07-10 a subject born 2006-06-15 — whose
18th birthday has already passed — is reported ineligible by the code, while
the specification formula yields age 18 and hence eligible: the code demands
`today.getDate() >= birthDate.getDate()` even when the birthday month is over. -/
theorem generateAgeProof_eligibility_bug :
    (generateAgeProof (fun x => x) "" ⟨2024, 7, 10⟩ 0 ⟨2006, 6, 15⟩).ageProof = false
    ∧ specIsOver18 ⟨2024, 7, 10⟩ ⟨2006, 6, 15⟩ = true
    ∧ (generateAgeProof (fun x => x) "" ⟨2024, 6, 15⟩ 0 ⟨2006, 6, 15⟩).ageProof = true
    ∧ (generateAgeProof (fun x => x) "" ⟨2024, 6, 15⟩ 0 ⟨2006, 6, 16⟩).ageProof = false
    ∧ (generateAgeProof (fun x => x) "" ⟨2024, 6, 15⟩ 0 ⟨2005, 6, 14⟩).ageProof = true
    ∧ specIsOver18 ⟨2024, 6, 15⟩ ⟨2006, 6, 15⟩ = true
    ∧ specIsOver18 ⟨2024, 6, 15⟩ ⟨2006, 6, 16⟩ = false
    ∧ specIsOver18 ⟨2024, 6, 15⟩ ⟨2005, 6, 14⟩ = true := by
  decide

/-- C2 counterexample: a proof object whose `timestamp` field is missing
(`undefined`) passes the structural check of `verifyAgeProof` and is accepted
outright on the claim-only path, instead of being rejected with
"Invalid proof structure": the structural check never looks at `timestamp`. -/
theorem verifyAgeProof_missing_timestamp_accepted :
    verifyAgeProof (fun x => x) ⟨2024, 6, 15⟩ 1718409600000
      ⟨.vStr "c", .vBool true, .vUndefined, .vUndefined⟩ none
      = { isValid := true, message := "Proof accepted: User claims to be over 18",
          proofDetails := none } := by
  decide

/-- C2 amended: `verifyAgeProof` rejects with "Invalid proof structure" (and
`isValid = false`) exactly when `commitment` is falsy or `ageProof` is not a
boolean; the `timestamp` field takes no part in the structural check. -/
theorem verifyAgeProof_structural_check_iff (sha256hex : String → String)
    (today : JSDate) (nowMs : Int) (proof : ProofInput) (birthDate : Option JSDate) :
    ((verifyAgeProof sha256hex today nowMs proof birthDate).message = "Invalid proof structure"
      ∧ (verifyAgeProof sha256hex today nowMs proof birthDate).isValid = false)
    ↔ (truthy proof.commitment = false ∨ isBoolean proof.ageProof = false) := by
  unfold verifyAgeProof
  by_cases hc : truthy proof.commitment <;> by_cases hb : isBoolean proof.ageProof <;>
    simp only [hc, hb, Bool.not_true, Bool.not_false, Bool.or_self, Bool.false_or,
      Bool.or_false, Bool.true_or, Bool.or_true, if_true, if_false] <;>
    simp_all
  rcases birthDate with _ | bd <;> split <;> simp_all <;> split <;> simp_all

/-- C3: on the claim-only path (no known birthdate), a structurally valid and
fresh proof is accepted with the acceptance message exactly when its `ageProof`
flag is `true`, and rejected with the rejection message when it is `false`,
whatever the commitment holds. -/
theorem verifyAgeProof_claim_only (sha256hex : String → String) (today : JSDate)
    (nowMs t : Int) (proof : ProofInput) (b : Bool)
    (hc : truthy proof.commitment = true)
    (hb : proof.ageProof = .vBool b)
    (ht : proof.timestamp = .vNum t)
    (hfresh : nowMs - t ≤ ONE_HOUR) :
    verifyAgeProof sha256hex today nowMs proof none
      = { isValid := b,
          message := if b then "Proof accepted: User claims to be over 18"
                     else "Proof rejected: User is not over 18",
          proofDetails := none } := by
  have hlt : ¬ (nowMs - t > ONE_HOUR) := by omega
  cases b <;>
    simp [verifyAgeProof, hc, hb, ht, toNumber, jsGt, isBoolean, jsStrictEq_vBool,
      truthy_vBool, hlt]

/-- Witness for C3 at a concrete accepted input. -/
theorem verifyAgeProof_claim_only_witness :
    verifyAgeProof (fun x => x) ⟨2024, 6, 15⟩ 0
      ⟨.vStr "c", .vBool true, .vNum 0, .vUndefined⟩ none
      = { isValid := true, message := "Proof accepted: User claims to be over 18",
          proofDetails := none } := by
  have h := verifyAgeProof_claim_only (fun x => x) ⟨2024, 6, 15⟩ 0 0
    ⟨.vStr "c", .vBool true, .vNum 0, .vUndefined⟩ true (by decide) rfl rfl (by decide)
  simpa using h

/-- C4: a structurally valid proof with a numeric timestamp is rejected with
"Proof has expired" exactly when its age `now - timestamp` exceeds the one-hour
replay window of 3,600,000 ms, and an expired proof is never valid. -/
theorem verifyAgeProof_expiry_iff (sha256hex : String → String) (today : JSDate)
    (nowMs t : Int) (proof : ProofInput) (birthDate : Option JSDate)
    (hc : truthy proof.commitment = true)
    (hb : isBoolean proof.ageProof = true)
    (ht : proof.timestamp = .vNum t) :
    ((verifyAgeProof sha256hex today nowMs proof birthDate).message = "Proof has expired"
      ↔ nowMs - t > 3600000)
    ∧ (nowMs - t > 3600000 →
        (verifyAgeProof sha256hex today nowMs proof birthDate).isValid = false) := by
  have hone : ONE_HOUR = 3600000 := by decide
  by_cases hexp : nowMs - t > 3600000
  · simp [verifyAgeProof, hc, hb, ht, toNumber, jsGt, hone, hexp]
  · rcases birthDate with _ | bd <;>
      simp [verifyAgeProof, hc, hb, ht, toNumber, jsGt, hone, hexp] <;>
      split <;> simp_all

/-- Witness for C4 at the two boundary inputs of the claim: one millisecond
past the window is rejected as expired, one millisecond short of it is not. -/
theorem verifyAgeProof_expiry_witness :
    (verifyAgeProof (fun x => x) ⟨2024, 6, 15⟩ 3600001
        ⟨.vStr "c", .vBool true, .vNum 0, .vUndefined⟩ none).message = "Proof has expired"
    ∧ (verifyAgeProof (fun x => x) ⟨2024, 6, 15⟩ 3599999
        ⟨.vStr "c", .vBool true, .vNum 0, .vUndefined⟩ none).message ≠ "Proof has expired" := by
  constructor
  · exact (verifyAgeProof_expiry_iff (fun x => x) ⟨2024, 6, 15⟩ 3600001 0
      ⟨.vStr "c", .vBool true, .vNum 0, .vUndefined⟩ none (by decide) (by decide) rfl).1.mpr
      (by decide)
  · intro hmsg
    exact absurd ((verifyAgeProof_expiry_iff (fun x => x) ⟨2024, 6, 15⟩ 3599999 0
      ⟨.vStr "c", .vBool true, .vNum 0, .vUndefined⟩ none (by decide) (by decide) rfl).1.mp hmsg)
      (by decide)

/-- C5: on the recomputation path (known birthdate and a string salt in the
proof object), a structurally valid and fresh proof is valid exactly when the
commitment strictly equals the recomputed digest of the canonical date
concatenated with the salt, the claimed flag equals the recomputed
eligibility, and the claimed flag is `true`. -/
theorem verifyAgeProof_recomputation_isValid (sha256hex : String → String)
    (today : JSDate) (nowMs t : Int) (proof : ProofInput) (bd : JSDate) (b : Bool) (s : String)
    (hc : truthy proof.commitment = true)
    (hb : proof.ageProof = .vBool b)
    (ht : proof.timestamp = .vNum t)
    (hs : proof.salt = .vStr s)
    (hfresh : nowMs - t ≤ ONE_HOUR) :
    (verifyAgeProof sha256hex today nowMs proof (some bd)).isValid
      = (jsStrictEq proof.commitment (.vStr (sha256hex (toISODateString bd ++ s)))
          && (b == isOver18Verify today bd) && b) := by
  have hlt : ¬ (nowMs - t > ONE_HOUR) := by omega
  simp only [verifyAgeProof, hb, ht, hs]
  simp [toNumber, jsGt, isBoolean, hc, hlt, jsToString, jsStrictEq_vBool]

/-- Witness for C5 at a concrete input where commitment, eligibility and flag
all match, so the proof verifies. -/
theorem verifyAgeProof_recomputation_witness :
    (verifyAgeProof (fun x => String.append "H" x) ⟨2024, 6, 15⟩ 0
        ⟨.vStr "H2006-06-15S", .vBool true, .vNum 0, .vStr "S"⟩
        (some ⟨2006, 6, 15⟩)).isValid = true := by
  have h := verifyAgeProof_recomputation_isValid (fun x => String.append "H" x)
    ⟨2024, 6, 15⟩ 0 0 ⟨.vStr "H2006-06-15S", .vBool true, .vNum 0, .vStr "S"⟩
    ⟨2006, 6, 15⟩ true "S" (by decide) rfl rfl rfl (by decide)
  rw [h]
  decide

/-- C6: for any digest function, salt and birthdate, the commitment produced
by `generateAgeProof` is the digest of the canonical YYYY-MM-DD date string
concatenated with the salt, and the verifier recomputation for the same date
and salt reproduces it exactly: the `expectedCommitment` it reports equals the
generated commitment (round-trip). -/
theorem commitment_roundtrip (sha256hex : String → String) (salt : String)
    (genToday verToday : JSDate) (genNow verNow : Int) (d : JSDate)
    (hne : sha256hex (toISODateString d ++ salt) ≠ "")
    (hfresh : verNow - genNow ≤ ONE_HOUR) :
    (generateAgeProof sha256hex salt genToday genNow d).commitment
        = sha256hex (toISODateString d ++ salt)
    ∧ ∃ pd : ProofDetails,
        (verifyAgeProof sha256hex verToday verNow
            (toVerifierInput (generateAgeProof sha256hex salt genToday genNow d))
            (some d)).proofDetails = some pd
        ∧ pd.expectedCommitment
            = (generateAgeProof sha256hex salt genToday genNow d).commitment := by
  refine ⟨rfl, ?_⟩
  have hlt : ¬ (verNow - genNow > ONE_HOUR) := by omega
  have htr : truthy (JSVal.vStr (sha256hex (toISODateString d ++ salt))) = true := by
    simp [truthy, hne]
  simp [verifyAgeProof, generateAgeProof, toVerifierInput, toNumber, jsGt, isBoolean,
    hlt, htr, jsToString]

/-- Witness for C6 at a concrete digest function, salt and date. -/
theorem commitment_roundtrip_witness :
    (generateAgeProof (fun x => String.append "H" x) "S" ⟨2024, 6, 15⟩ 0 ⟨2006, 6, 15⟩).commitment
        = (fun x => String.append "H" x) (toISODateString ⟨2006, 6, 15⟩ ++ "S")
    ∧ ∃ pd : ProofDetails,
        (verifyAgeProof (fun x => String.append "H" x) ⟨2024, 6, 15⟩ 1
            (toVerifierInput
              (generateAgeProof (fun x => String.append "H" x) "S" ⟨2024, 6, 15⟩ 0 ⟨2006, 6, 15⟩))
            (some ⟨2006, 6, 15⟩)).proofDetails = some pd
        ∧ pd.expectedCommitment
            = (generateAgeProof (fun x => String.append "H" x) "S"
                ⟨2024, 6, 15⟩ 0 ⟨2006, 6, 15⟩).commitment :=
  commitment_roundtrip (fun x => String.append "H" x) "S" ⟨2024, 6, 15⟩ ⟨2024, 6, 15⟩ 0 1
    ⟨2006, 6, 15⟩ (by decide) (by decide)

/-- C7 counterexample: for a birthdate strictly after the current instant
(2030-01-01 against 2024-06-15), `generateAgeProof` does not fail — the
embedded function is total and the source has no error path and no
InvalidDateError anywhere — and instead returns the complete private record,
with `ageProof = false`. -/
theorem generateAgeProof_future_no_error :
    generateAgeProof (fun x => String.append "H" x) "S" ⟨2024, 6, 15⟩ 1718409600000 ⟨2030, 1, 1⟩
      = { commitment := "H2030-01-01S", ageProof := false,
          timestamp := 1718409600000, salt := "S" } := by
  decide

/-- C7 amended: `generateAgeProof` performs no date validation and never
fails: for every birthdate, valid-calendar or not, past or future, it returns
the full private record with the digest commitment, the computed eligibility
flag, the clock timestamp and the salt. -/
theorem generateAgeProof_total_record (sha256hex : String → String) (salt : String)
    (today : JSDate) (nowMs : Int) (birthDate : JSDate) :
    generateAgeProof sha256hex salt today nowMs birthDate
      = { commitment := sha256hex (toISODateString birthDate ++ salt),
          ageProof := isOver18Gen today birthDate,
          timestamp := nowMs, salt := salt } := rfl

/-- C8: `createPublicProof` is a total pure projection: it returns exactly the
`commitment`, `ageProof` and `timestamp` fields of its input, into a record
type that has no `salt` field at all. -/
theorem createPublicProof_projection (p : AgeProof) :
    createPublicProof p
      = { commitment := p.commitment, ageProof := p.ageProof,
          timestamp := p.timestamp } := rfl

/-- C9 counterexample: the eligibility boolean of `generateAgeProof` and the
one recomputed inside `verifyAgeProof` are not the same function: for a
subject born 2006-06-15 evaluated on 2024-07-10, generation computes `false`
while the verifier recomputation computes `true`. -/
theorem eligibility_formulas_differ :
    (generateAgeProof (fun x => x) "" ⟨2024, 7, 10⟩ 0 ⟨2006, 6, 15⟩).ageProof = false
    ∧ isOver18Verify ⟨2024, 7, 10⟩ ⟨2006, 6, 15⟩ = true := by
  decide

/-- C9 amended: the eligibility flag of `generateAgeProof` is `isOver18Gen`,
and the verifier recomputation `isOver18Verify` equals it except on one
region: when the raw year difference is exactly 18, the birthday month has
already passed, but the current day-of-month is smaller than the birth
day-of-month, generation says ineligible while the verifier recomputation says
eligible. Generation therefore implies verification but not conversely. -/
theorem eligibility_gen_vs_verify (sha256hex : String → String) (salt : String)
    (today : JSDate) (nowMs : Int) (d : JSDate) :
    (generateAgeProof sha256hex salt today nowMs d).ageProof = isOver18Gen today d
    ∧ isOver18Verify today d
      = (isOver18Gen today d
          || (decide (today.year - d.year = 18) && decide (today.month > d.month)
              && decide (today.day < d.day))) := by
  refine ⟨rfl, ?_⟩
  apply bool_eq_of_iff
  unfold isOver18Gen isOver18Verify
  simp only [Bool.or_eq_true, Bool.and_eq_true, decide_eq_true_eq]
  omega

/-- C10: a structurally valid proof whose numeric timestamp lies strictly in
the future of the verification clock is never rejected as expired — the
freshness check compares only `now - timestamp > ONE_HOUR`, which a negative
age can never satisfy — and on the claim-only path such a proof with
`ageProof = true` is accepted, however far in the future the timestamp lies. -/
theorem verifyAgeProof_future_timestamp (sha256hex : String → String) (today : JSDate)
    (nowMs t : Int) (proof : ProofInput) (birthDate : Option JSDate)
    (hc : truthy proof.commitment = true)
    (hb : isBoolean proof.ageProof = true)
    (ht : proof.timestamp = .vNum t)
    (hfut : nowMs < t) :
    (verifyAgeProof sha256hex today nowMs proof birthDate).message ≠ "Proof has expired"
    ∧ (proof.ageProof = .vBool true →
        (verifyAgeProof sha256hex today nowMs proof none).isValid = true) := by
  have hpos : (0 : Int) ≤ ONE_HOUR := by decide
  have hlt : ¬ (nowMs - t > ONE_HOUR) := by omega
  constructor
  · rcases birthDate with _ | bd <;>
      simp [verifyAgeProof, hc, hb, ht, toNumber, jsGt, hlt] <;>
      split <;> simp_all
  · intro hbt
    simp [verifyAgeProof, hc, hbt, ht, toNumber, jsGt, isBoolean, jsStrictEq_vBool, hlt]

/-- Witness for C10 with a timestamp a trillion milliseconds in the future. -/
theorem verifyAgeProof_future_timestamp_witness :
    (verifyAgeProof (fun x => x) ⟨2024, 6, 15⟩ 1718409600000
        ⟨.vStr "c", .vBool true, .vNum 1000001718409600000, .vUndefined⟩ none).message
      ≠ "Proof has expired"
    ∧ (verifyAgeProof (fun x => x) ⟨2024, 6, 15⟩ 1718409600000
        ⟨.vStr "c", .vBool true, .vNum 1000001718409600000, .vUndefined⟩ none).isValid = true := by
  have h := verifyAgeProof_future_timestamp (fun x => x) ⟨2024, 6, 15⟩ 1718409600000
    1000001718409600000 ⟨.vStr "c", .vBool true, .vNum 1000001718409600000, .vUndefined⟩ none
    (by decide) (by decide) rfl (by decide)
  exact ⟨h.1, h.2 rfl⟩

end ZkAge
